import Mathlib

/-!
Verification development for the MCP keyword-search server
(`search_tool.py` and `server.py`).

The Python code is shallowly embedded: file contents are strings
(`List Char`), the filesystem is a partial map from paths to entries,
JSON request/response values are an inductive `Json` type, and Python
exceptions are an explicit `Except` error channel (`PyExn`).
-/

set_option maxRecDepth 4000

/-- `String.data` as a short helper: Python strings are modelled as `List Char`. -/
def strL (s : String) : List Char := s.data

/-- A single search hit, modelling the Python dict `{"line": int, "text": str}`
produced by both `search_in_file` and `search_keyword_tool`. -/
structure MatchRecord where
  line : Nat
  text : List Char
  deriving DecidableEq, Repr

/-- Models Python `str.rstrip("\n")`: drop every trailing newline character. -/
def rstripNL (l : List Char) : List Char :=
  (l.reverse.dropWhile (fun c => c = '\n')).reverse

/-- Models Python text-file line iteration (`for raw_line in fh`): split the
content after each newline, keeping the newline on each line, with no empty
final line when the content ends in a newline. -/
def splitKeepEnds : List Char → List (List Char)
  | [] => []
  | c :: cs =>
    if c = '\n' then [c] :: splitKeepEnds cs
    else
      match splitKeepEnds cs with
      | [] => [[c]]
      | l :: ls => (c :: l) :: ls

/-- The scanning loop shared by `search_in_file` (search_tool.py lines 52-57)
and `search_keyword_tool` (server.py lines 159-161): enumerate lines starting
at `i`, and for each line satisfying the predicate append one record with the
1-based index and the line with trailing newlines stripped. -/
def scanLines (pred : List Char → Bool) : Nat → List (List Char) → List MatchRecord
  | _, [] => []
  | i, l :: ls =>
    if pred l then ⟨i, rstripNL l⟩ :: scanLines pred (i + 1) ls
    else scanLines pred (i + 1) ls

/-- Bool-valued "is prefix of" on char lists. -/
def isPfx : List Char → List Char → Bool
  | [], _ => true
  | _ :: _, [] => false
  | c :: cs, d :: ds => c == d && isPfx cs ds

/-- Models Python substring containment `needle in hay`. -/
def strContains (needle : List Char) : List Char → Bool
  | [] => isPfx needle []
  | c :: t => isPfx needle (c :: t) || strContains needle t

/-- Models Python `str.lower()` as a per-character simple case mapping.
(Python's lowering is a per-character map; multi-character expansions of a
few exotic code points are not modelled, and no property proved here
depends on the choice of per-character map.) -/
def pyLower (s : List Char) : List Char := s.map Char.toLower

/-- Models the Python dict `{"matches": [...], "count": len(matches)}`
returned by `search_keyword_tool` (server.py line 165). `matches'` models
the `"matches"` key (`matches` is reserved in Lean). -/
structure SearchResult where
  matches' : List MatchRecord
  count : Nat
  deriving Repr

/-- JSON values, as delivered to `mcp_endpoint` by the HTTP layer
(already parsed; objects model Python dicts with unique keys). -/
inductive Json where
  | null
  | bool (b : Bool)
  | num (n : Int)
  | str (s : List Char)
  | arr (xs : List Json)
  | obj (kvs : List (String × Json))

/-- A JSON string literal. -/
def jstr (s : String) : Json := .str s.data

/-- Models Python `d.get(k, default)` on a dict already known to be a dict. -/
def pyGet (kvs : List (String × Json)) (k : String) (d : Json) : Json :=
  match kvs with
  | [] => d
  | (k2, v) :: rest => if k2 = k then v else pyGet rest k d

/-- Python truthiness of a JSON value (`bool(x)`). -/
def truthy : Json → Bool
  | .null => false
  | .bool b => b
  | .num n => n != 0
  | .str s => !s.isEmpty
  | .arr xs => !xs.isEmpty
  | .obj kvs => !kvs.isEmpty

/-- A filesystem entry: a readable text file with the given decoded content,
or a directory (which `Path.exists()` reports as existing but which `open`
refuses to read). -/
inductive FSEntry where
  | file (content : List Char)
  | dir

/-- The filesystem visible to the program: a partial map from paths. -/
def FS : Type := String → Option FSEntry

/-- Python exceptions that can escape or be converted by the code under
verification. `httpExc` is FastAPI's `HTTPException(status_code, detail)`;
the remaining constructors are ordinary Python exceptions. -/
inductive PyExn where
  | httpExc (status : Nat) (detail : Json)
  | attrError (msg : List Char)
  | typeError (msg : List Char)
  | fileNotFound (path : String)
  | isADirectory (path : String)
  | valueError (msg : List Char)

mutual

/-- Models Python `repr()` for the JSON-like values that occur here
(string escaping inside reprs is not modelled). -/
def pyRepr : Json → List Char
  | .null => strL "None"
  | .bool true => strL "True"
  | .bool false => strL "False"
  | .num n => (toString n).data
  | .str s => '\x27' :: s ++ ['\x27']
  | .arr xs => '[' :: pyReprArr xs ++ [']']
  | .obj kvs => '\x7b' :: pyReprObj kvs ++ ['\x7d']

/-- Comma-joined reprs of a list's elements. -/
def pyReprArr : List Json → List Char
  | [] => []
  | [x] => pyRepr x
  | x :: y :: rest => pyRepr x ++ strL ", " ++ pyReprArr (y :: rest)

/-- Comma-joined `key: value` reprs of a dict's entries. -/
def pyReprObj : List (String × Json) → List Char
  | [] => []
  | [(k, v)] => ('\x27' :: k.data ++ ['\x27']) ++ strL ": " ++ pyRepr v
  | (k, v) :: p :: rest =>
    ('\x27' :: k.data ++ ['\x27']) ++ strL ": " ++ pyRepr v ++ strL ", " ++ pyReprObj (p :: rest)

end

/-- Models Python `str()` as used in f-strings and `str(e.detail)`:
the identity on strings, `repr`-like elsewhere. -/
def pyStr (j : Json) : List Char :=
  match j with
  | .str s => s
  | _ => pyRepr j

/-- One item of a compiled regular expression in the modelled fragment:
a literal character or a (possibly negated) character class. -/
inductive ReItem where
  | lit (c : Char)
  | cls (neg : Bool) (cs : List Char)
  deriving DecidableEq, Repr

/-- Parse the body of a character class after `[` or `[^`: a nonempty run of
plain characters up to the closing `]`. Returns the class members and the
rest of the pattern. -/
def parseClassBody : List Char → List Char → Option (List Char × List Char)
  | _, [] => none
  | acc, c :: rest =>
    if c = ']' then (if acc.isEmpty then none else some (acc.reverse, rest))
    else if c = '\\' || c = '-' || c = '^' || c = '[' then none
    else parseClassBody (c :: acc) rest

/-- Characters with special meaning at the top level of a Python regex:
within the modelled fragment they make a pattern unsupported. -/
def reTopSpecial (c : Char) : Bool :=
  c = '.' || c = '^' || c = '$' || c = '*' || c = '+' || c = '?' ||
  c = '\\' || c = '|' || c = '(' || c = ')' || c = ']' ||
  c = '\x7b' || c = '\x7d'

/-- Fuelled worker for `reCompile`; the fuel is an upper bound on the number
of parsing steps (each step consumes at least one character). -/
def reCompileAux : Nat → List Char → Option (List ReItem)
  | 0, _ => none
  | _ + 1, [] => some []
  | fuel + 1, c :: rest =>
    if c = '[' then
      match rest with
      | '^' :: rest2 =>
        match parseClassBody [] rest2 with
        | none => none
        | some (cs, rest3) =>
          match reCompileAux fuel rest3 with
          | none => none
          | some its => some (.cls true cs :: its)
      | _ =>
        match parseClassBody [] rest with
        | none => none
        | some (cs, rest3) =>
          match reCompileAux fuel rest3 with
          | none => none
          | some its => some (.cls false cs :: its)
    else if reTopSpecial c then none
    else
      match reCompileAux fuel rest with
      | none => none
      | some its => some (.lit c :: its)

/-- Models Python `re.compile` (standard library, outside this repository's
sources) restricted to the fragment of literal characters and simple
character classes `[...]` / `[^...]`; any pattern using other regex syntax
is conservatively treated as unsupported (`none`). On patterns inside the
fragment the semantics agrees with Python's. -/
def reCompile (s : List Char) : Option (List ReItem) :=
  reCompileAux (s.length + 1) s

/-- Does one compiled item match one character? Under `re.IGNORECASE`
(`ci = true`) comparison is case-folded, including inside a negated class
(Python applies the fold to class membership before complementing). -/
def matchItem (ci : Bool) : ReItem → Char → Bool
  | .lit c, d => if ci then c.toLower == d.toLower else c == d
  | .cls neg cs, d =>
    let mem := cs.any (fun c => if ci then c.toLower == d.toLower else c == d)
    if neg then !mem else mem

/-- Match a compiled pattern against a prefix of the text. -/
def matchSeq (ci : Bool) : List ReItem → List Char → Bool
  | [], _ => true
  | _ :: _, [] => false
  | it :: its, c :: rest => matchItem ci it c && matchSeq ci its rest

/-- Models `pattern.search(line)`: does the pattern match starting at any
position of the line? -/
def reSearch (ci : Bool) (pat : List ReItem) : List Char → Bool
  | [] => matchSeq ci pat []
  | c :: t => matchSeq ci pat (c :: t) || reSearch ci pat t

/-- The predicate-selection phase of `search_in_file`
(search_tool.py lines 33-50), which in the source runs before the file is
opened: compile the regex (a `re.error` becomes `ValueError`) or build the
substring predicate, case-folded if requested. -/
def predOf (keyword : List Char) (ci ur : Bool) : Except PyExn (List Char → Bool) :=
  if ur then
    match reCompile keyword with
    | some pat => .ok (fun line => reSearch ci pat line)
    | none => .error (.valueError (strL "invalid regex pattern"))
  else if ci then .ok (fun line => strContains (pyLower keyword) (pyLower line))
  else .ok (fun line => strContains keyword line)

/-- Models `search_in_file` (search_tool.py lines 14-57): build the
predicate, open the file (a missing path raises `FileNotFoundError`, a
directory raises an `OSError` on open), and scan the lines in order with
1-based numbering. -/
def search_in_file (fs : FS) (path : String) (keyword : List Char)
    (ci ur : Bool) : Except PyExn (List MatchRecord) :=
  match predOf keyword ci ur with
  | .error e => .error e
  | .ok pred =>
    match fs path with
    | none => .error (.fileNotFound path)
    | some .dir => .error (.isADirectory path)
    | some (.file content) => .ok (scanLines pred 1 (splitKeepEnds content))

/-- The successful scan of `search_keyword_tool`: case-insensitive substring
matching over the file's lines, with `count = len(matches)`. -/
def runScanCI (kws content : List Char) : SearchResult :=
  let s := scanLines (fun l => strContains (pyLower kws) (pyLower l)) 1 (splitKeepEnds content)
  ⟨s, s.length⟩

/-- Models `search_keyword_tool` (server.py lines 146-165). `args.get` on a
non-dict raises `AttributeError`; falsy `file_path`/`keyword` raise
`HTTPException 400`; `pathlib.Path` of a non-string raises `TypeError`; a
nonexistent path raises `HTTPException 400`; inside the `try` block an
unreadable entry (directory) or a non-string `keyword` (first loop
iteration) raises, is caught by `except Exception`, and becomes
`HTTPException 500` (exception texts are abbreviated). -/
def search_keyword_tool (fs : FS) (args : Json) : Except PyExn SearchResult :=
  match args with
  | .obj kvs =>
    if truthy (pyGet kvs "file_path" Json.null) && truthy (pyGet kvs "keyword" Json.null) then
      match pyGet kvs "file_path" Json.null with
      | .str fps =>
        match fs (String.mk fps) with
        | none =>
          .error (.httpExc 400 (.obj [("error", .str (strL "File not found: " ++ fps))]))
        | some .dir =>
          .error (.httpExc 500 (.obj [("error", .str (strL "Is a directory: " ++ fps))]))
        | some (.file content) =>
          match pyGet kvs "keyword" Json.null with
          | .str kws => .ok (runScanCI kws content)
          | _ =>
            match splitKeepEnds content with
            | [] => .ok ⟨[], 0⟩
            | _ :: _ =>
              .error (.httpExc 500 (.obj [("error", .str (strL "object has no attribute lower"))]))
      | _ => .error (.typeError (strL "argument should be a str or an os.PathLike object"))
    else
      .error (.httpExc 400 (.obj [("error",
        .str (strL "Missing \x27file_path\x27 or \x27keyword\x27 in args"))]))
  | _ => .error (.attrError (strL "object has no attribute get"))

/-- An RPC success envelope `{"jsonrpc": ..., "id": ..., "result": ...}`. -/
def rpcOk (jsonrpc req_id result : Json) : Json :=
  .obj [("jsonrpc", jsonrpc), ("id", req_id), ("result", result)]

/-- An RPC error envelope
`{"jsonrpc": ..., "id": ..., "error": {"code": ..., "message": ...}}`. -/
def rpcErr (jsonrpc req_id : Json) (code : Int) (msg : List Char) : Json :=
  .obj [("jsonrpc", jsonrpc), ("id", req_id),
        ("error", .obj [("code", .num code), ("message", .str msg)])]

/-- The fixed `initialize` result descriptor (server.py lines 43-52). -/
def initResult : Json :=
  .obj [("protocolVersion", jstr "2024-11-05"),
        ("capabilities", .obj [("tools", .obj [])]),
        ("serverInfo", .obj [("name", jstr "mcp-keyword-search"),
                             ("version", jstr "1.0.0")])]

/-- The fixed one-entry tool catalog returned by `tools/list`
(server.py lines 57-78). -/
def toolsListResult : Json :=
  .obj [("tools", .arr [
    .obj [("name", jstr "search_keyword"),
          ("description", jstr "Search for a keyword in a text file (case-insensitive)"),
          ("inputSchema", .obj [
            ("type", jstr "object"),
            ("properties", .obj [
              ("file_path", .obj [("type", jstr "string"),
                                  ("description", jstr "Path to the file to search")]),
              ("keyword", .obj [("type", jstr "string"),
                                ("description", jstr "Keyword to search for")])]),
            ("required", .arr [jstr "file_path", jstr "keyword"])])]])]

/-- Python `"\n".join(xs)`. -/
def joinNl : List (List Char) → List Char
  | [] => []
  | [x] => x
  | x :: y :: rest => x ++ '\n' :: joinNl (y :: rest)

/-- The human-readable text block built on `tools/call` success
(server.py lines 93-94): `"Found {count} matches:\n"` followed by the
newline-joined `"Line {line}: {text}"` lines. -/
def fmtText (r : SearchResult) : List Char :=
  strL "Found " ++ (toString r.count).data ++ strL " matches:\n" ++
    joinNl (r.matches'.map (fun m => strL "Line " ++ (toString m.line).data ++ strL ": " ++ m.text))

/-- Models the `tools/call` branch of `mcp_endpoint` (server.py lines
82-116): read `params.name` and `params.arguments` (raising
`AttributeError` if `params` is not a dict), run the tool, wrap success in
a text-content result, convert a caught `HTTPException` into an error
envelope whose code is the HTTP status, and report any other tool name
with code `-32601`; exceptions other than `HTTPException` propagate. -/
def handleToolsCall (fs : FS) (jsonrpc req_id params : Json) : Except PyExn Json :=
  match params with
  | .obj pkvs =>
    match pyGet pkvs "name" Json.null with
    | .str n =>
      if n = strL "search_keyword" then
        match search_keyword_tool fs (pyGet pkvs "arguments" (Json.obj [])) with
        | .ok r =>
          .ok (rpcOk jsonrpc req_id
            (.obj [("content", .arr [.obj [("type", jstr "text"),
                                           ("text", .str (fmtText r))]])]))
        | .error (.httpExc s d) => .ok (rpcErr jsonrpc req_id (Int.ofNat s) (pyStr d))
        | .error e => .error e
      else
        .ok (rpcErr jsonrpc req_id (-32601)
          (strL "Unknown tool: " ++ pyStr (pyGet pkvs "name" Json.null)))
    | _ =>
      .ok (rpcErr jsonrpc req_id (-32601)
        (strL "Unknown tool: " ++ pyStr (pyGet pkvs "name" Json.null)))
  | _ => .error (.attrError (strL "object has no attribute get"))

/-- Models the RPC branch of `mcp_endpoint` (server.py lines 35-127),
entered when the body is a dict with a `"method"` key: echo `jsonrpc`
(default `"2.0"`) and `id`, dispatch on the method, and answer any unknown
method with code `-32601`. -/
def handleRpc (fs : FS) (body : Json) : Except PyExn Json :=
  match body with
  | .obj kvs =>
    match pyGet kvs "method" Json.null with
    | .str m =>
      if m = strL "initialize" then
        .ok (rpcOk (pyGet kvs "jsonrpc" (jstr "2.0")) (pyGet kvs "id" Json.null) initResult)
      else if m = strL "tools/list" then
        .ok (rpcOk (pyGet kvs "jsonrpc" (jstr "2.0")) (pyGet kvs "id" Json.null) toolsListResult)
      else if m = strL "tools/call" then
        handleToolsCall fs (pyGet kvs "jsonrpc" (jstr "2.0")) (pyGet kvs "id" Json.null)
          (pyGet kvs "params" (Json.obj []))
      else
        .ok (rpcErr (pyGet kvs "jsonrpc" (jstr "2.0")) (pyGet kvs "id" Json.null) (-32601)
          (strL "Method not found: " ++ pyStr (pyGet kvs "method" Json.null)))
    | mv =>
      .ok (rpcErr (pyGet kvs "jsonrpc" (jstr "2.0")) (pyGet kvs "id" Json.null) (-32601)
        (strL "Method not found: " ++ pyStr mv))
  | _ => .error (.attrError (strL "object has no attribute get"))

/-- Models `body.get("args") or body.get("params") or {}`
(server.py line 135): Python `or` selects the first truthy operand. -/
def extractArgs (kvs : List (String × Json)) : Json :=
  if truthy (pyGet kvs "args" Json.null) then pyGet kvs "args" Json.null
  else if truthy (pyGet kvs "params" Json.null) then pyGet kvs "params" Json.null
  else Json.obj []

/-- The JSON encoding of a match record, `{"line": ..., "text": ...}`. -/
def encodeMatch (m : MatchRecord) : Json :=
  .obj [("line", .num (Int.ofNat m.line)), ("text", .str m.text)]

/-- The JSON encoding of the Direct-variant success body
`{"matches": [...], "count": ...}`. -/
def encodeResult (r : SearchResult) : Json :=
  .obj [("matches", .arr (r.matches'.map encodeMatch)), ("count", .num (Int.ofNat r.count))]

/-- Models the Direct branch of `mcp_endpoint` (server.py lines 130-143):
a non-dict body, a missing/falsy `tool`, and an unknown tool all raise
`HTTPException 400`; `search_keyword` runs the tool and returns its result
body unwrapped, letting any exception propagate. -/
def handleDirect (fs : FS) (body : Json) : Except PyExn Json :=
  match body with
  | .obj kvs =>
    if truthy (pyGet kvs "tool" Json.null) then
      match pyGet kvs "tool" Json.null with
      | .str t =>
        if t = strL "search_keyword" then
          match search_keyword_tool fs (extractArgs kvs) with
          | .ok r => .ok (encodeResult r)
          | .error e => .error e
        else
          .error (.httpExc 400 (.obj [("error",
            .str (strL "Unknown tool: " ++ pyStr (pyGet kvs "tool" Json.null)))]))
      | tv =>
        .error (.httpExc 400 (.obj [("error",
          .str (strL "Unknown tool: " ++ pyStr tv))]))
    else
      .error (.httpExc 400 (.obj [("error",
        .str (strL "Missing \x27tool\x27 in request body"))]))
  | _ => .error (.httpExc 400 (.obj [("error", .str (strL "Invalid request body"))]))

/-- The classification test of server.py line 35:
`isinstance(body, dict) and "method" in body`. -/
def hasMethodKey : Json → Bool
  | .obj kvs => kvs.any (fun p => p.1 == "method")
  | _ => false

/-- Models `mcp_endpoint` (server.py lines 29-143): bodies that are dicts
containing a `"method"` key take the RPC branch (every RPC sub-branch
returns); everything else falls through to the Direct branch. -/
def mcp_endpoint (fs : FS) (body : Json) : Except PyExn Json :=
  if hasMethodKey body then handleRpc fs body else handleDirect fs body

/-- Is an outcome a returned value or a raised `HTTPException` (the error
descriptor FastAPI surfaces as the corresponding HTTP status)? -/
def okOrHttp {α : Type} : Except PyExn α → Bool
  | .ok _ => true
  | .error (.httpExc _ _) => true
  | .error _ => false

/-- Argument mappings on which `search_keyword_tool` cannot raise anything
but `HTTPException`: the value is a dict whose `file_path` entry is a
string or falsy. -/
def argsSafe (j : Json) : Bool :=
  match j with
  | .obj kvs =>
    match pyGet kvs "file_path" Json.null with
    | .str _ => true
    | v => !truthy v
  | _ => false

/-- `params` values on which the `tools/call` branch cannot raise: a dict
whose `arguments` are `argsSafe` when the named tool is `search_keyword`. -/
def paramsSafe (params : Json) : Bool :=
  match params with
  | .obj pkvs =>
    match pyGet pkvs "name" Json.null with
    | .str n =>
      if n = strL "search_keyword" then argsSafe (pyGet pkvs "arguments" (Json.obj []))
      else true
    | _ => true
  | _ => false

/-- Request bodies on which the adapter converts every failure into a
response-shaped value: RPC `tools/call` bodies need `paramsSafe` params,
Direct `search_keyword` bodies need an `argsSafe` argument mapping. -/
def safeBody : Json → Bool
  | .obj kvs =>
    if kvs.any (fun p => p.1 == "method") then
      match pyGet kvs "method" Json.null with
      | .str m =>
        if m = strL "tools/call" then paramsSafe (pyGet kvs "params" (Json.obj []))
        else true
      | _ => true
    else
      match pyGet kvs "tool" Json.null with
      | .str t =>
        if t = strL "search_keyword" then argsSafe (extractArgs kvs)
        else true
      | _ => true
  | _ => true

theorem scanLines_le (p : List Char → Bool) :
    ∀ (ls : List (List Char)) (i : Nat), ∀ r ∈ scanLines p i ls, i ≤ r.line := by
  intro ls
  induction ls with
  | nil => intro i r hr; simp [scanLines] at hr
  | cons l t ih =>
    intro i r hr
    simp only [scanLines] at hr
    split at hr
    · rcases List.mem_cons.mp hr with rfl | hr
      · exact Nat.le_refl _
      · exact Nat.le_of_succ_le (ih (i + 1) r hr)
    · exact Nat.le_of_succ_le (ih (i + 1) r hr)

theorem scanLines_pairwise (p : List Char → Bool) :
    ∀ (ls : List (List Char)) (i : Nat),
      (scanLines p i ls).Pairwise (fun a b => a.line < b.line) := by
  intro ls
  induction ls with
  | nil => intro i; simp [scanLines]
  | cons l t ih =>
    intro i
    simp only [scanLines]
    split
    · refine List.Pairwise.cons ?_ (ih (i + 1))
      intro b hb
      exact Nat.lt_of_lt_of_le (Nat.lt_succ_self i) (scanLines_le p t (i + 1) b hb)
    · exact ih (i + 1)

theorem scanLines_length (p : List Char → Bool) :
    ∀ (ls : List (List Char)) (i : Nat),
      (scanLines p i ls).length = ls.countP p := by
  intro ls
  induction ls with
  | nil => intro i; simp [scanLines]
  | cons l t ih =>
    intro i
    simp only [scanLines, List.countP_cons]
    by_cases h : p l = true
    · rw [if_pos h]
      simp [h, ih (i + 1)]
    · rw [if_neg h]
      simp [h, ih (i + 1)]

theorem scanLines_countP_zero (p : List Char → Bool) (m : Nat) :
    ∀ (ls : List (List Char)) (i : Nat), m < i →
      (scanLines p i ls).countP (fun r => r.line == m) = 0 := by
  intro ls i hm
  rw [List.countP_eq_zero]
  intro r hr
  have hle := scanLines_le p ls i r hr
  simp only [beq_iff_eq]
  omega

theorem scanLines_countP_line (p : List Char → Bool) :
    ∀ (ls : List (List Char)) (i j : Nat) (hj : j < ls.length),
      (scanLines p i ls).countP (fun r => r.line == i + j) =
        if p (ls.get ⟨j, hj⟩) then 1 else 0 := by
  intro ls
  induction ls with
  | nil => intro i j hj; exact absurd hj (Nat.not_lt_zero j)
  | cons l t ih =>
    intro i j hj
    simp only [scanLines]
    cases j with
    | zero =>
      have h0 := scanLines_countP_zero p (i + 0) t (i + 1) (by omega)
      by_cases h : p l = true
      · rw [if_pos h, List.countP_cons, h0]
        simp [List.get, h]
      · rw [if_neg h]
        simp only [List.get]
        rw [if_neg h, h0]
    | succ j' =>
      have hj' : j' < t.length := by simpa using hj
      have harith : i + (j' + 1) = (i + 1) + j' := by omega
      have htail := ih (i + 1) j' hj'
      by_cases h : p l = true
      · rw [if_pos h, List.countP_cons]
        have hhead : ((⟨i, rstripNL l⟩ : MatchRecord).line == i + (j' + 1)) = false := by
          simp
        rw [hhead]
        simp only [harith, htail, List.get]
        simp
      · rw [if_neg h]
        simp only [harith, htail, List.get]

theorem scanLines_sublist {p q : List Char → Bool}
    (hpq : ∀ l, p l = true → q l = true) :
    ∀ (ls : List (List Char)) (i : Nat),
      (scanLines p i ls).Sublist (scanLines q i ls) := by
  intro ls
  induction ls with
  | nil => intro i; simp [scanLines]
  | cons l t ih =>
    intro i
    simp only [scanLines]
    by_cases h : p l = true
    · rw [if_pos h, if_pos (hpq l h)]
      exact List.Sublist.cons₂ _ (ih (i + 1))
    · rw [if_neg h]
      by_cases h2 : q l = true
      · rw [if_pos h2]; exact List.Sublist.cons _ (ih (i + 1))
      · rw [if_neg h2]; exact ih (i + 1)

theorem isPfx_map (f : Char → Char) :
    ∀ (a b : List Char), isPfx a b = true → isPfx (a.map f) (b.map f) = true := by
  intro a
  induction a with
  | nil => intro b _; rfl
  | cons c cs ih =>
    intro b h
    cases b with
    | nil => simp [isPfx] at h
    | cons d ds =>
      simp only [isPfx, Bool.and_eq_true, beq_iff_eq] at h
      simp only [List.map_cons, isPfx, Bool.and_eq_true, beq_iff_eq]
      exact ⟨by rw [h.1], ih ds h.2⟩

theorem strContains_map (f : Char → Char) (needle : List Char) :
    ∀ (hay : List Char), strContains needle hay = true →
      strContains (needle.map f) (hay.map f) = true := by
  intro hay
  induction hay with
  | nil =>
    intro h
    simpa [strContains] using isPfx_map f needle [] (by simpa [strContains] using h)
  | cons c t ih =>
    intro h
    simp only [strContains, Bool.or_eq_true] at h
    simp only [List.map_cons, strContains, Bool.or_eq_true]
    rcases h with h | h
    · left
      simpa using isPfx_map f needle (c :: t) h
    · right
      exact ih h

theorem strContains_nil_needle : ∀ (hay : List Char), strContains [] hay = true := by
  intro hay
  cases hay <;> rfl

theorem mcp_search_call (fs : FS) (jrv idv args : Json) :
    mcp_endpoint fs (Json.obj [("method", jstr "tools/call"), ("jsonrpc", jrv), ("id", idv),
        ("params", Json.obj [("name", jstr "search_keyword"), ("arguments", args)])]) =
      (match search_keyword_tool fs args with
       | .ok r =>
         .ok (rpcOk jrv idv (.obj [("content", .arr [.obj [("type", jstr "text"),
                ("text", .str (fmtText r))]])]))
       | .error (.httpExc s d) => .ok (rpcErr jrv idv (Int.ofNat s) (pyStr d))
       | .error e => .error e) := rfl

theorem search_keyword_tool_depends (fs : FS) (a1 a2 : List (String × Json))
    (h1 : pyGet a1 "file_path" Json.null = pyGet a2 "file_path" Json.null)
    (h2 : pyGet a1 "keyword" Json.null = pyGet a2 "keyword" Json.null) :
    search_keyword_tool fs (Json.obj a1) = search_keyword_tool fs (Json.obj a2) := by
  simp only [search_keyword_tool, h1, h2]

theorem search_ok_cases (fs : FS) (args : Json) (r : SearchResult)
    (h : search_keyword_tool fs args = .ok r) :
    (∃ kws content, r = runScanCI kws content) ∨ r = ⟨[], 0⟩ := by
  cases args with
  | null => simp [search_keyword_tool] at h
  | bool b => simp [search_keyword_tool] at h
  | num n => simp [search_keyword_tool] at h
  | str s => simp [search_keyword_tool] at h
  | arr xs => simp [search_keyword_tool] at h
  | obj kvs =>
    simp only [search_keyword_tool] at h
    split at h
    · split at h
      · split at h
        · simp at h
        · simp at h
        · split at h
          · left
            injection h with h'
            exact ⟨_, _, h'.symm⟩
          · split at h
            · right
              injection h with h'
              exact h'.symm
            · simp at h
      · simp at h
    · simp at h

theorem search_ok_shape (fs : FS) (args : Json) (r : SearchResult)
    (h : search_keyword_tool fs args = .ok r) :
    r.count = r.matches'.length ∧ r.matches'.Pairwise (fun a b => a.line < b.line) := by
  rcases search_ok_cases fs args r h with ⟨kws, content, rfl⟩ | rfl
  · exact ⟨rfl, scanLines_pairwise _ _ _⟩
  · exact ⟨rfl, List.Pairwise.nil⟩

theorem search_err_status (fs : FS) (args : Json) (s : Nat) (d : Json)
    (h : search_keyword_tool fs args = .error (.httpExc s d)) :
    s = 400 ∨ s = 500 := by
  cases args with
  | null => simp [search_keyword_tool] at h
  | bool b => simp [search_keyword_tool] at h
  | num n => simp [search_keyword_tool] at h
  | str s2 => simp [search_keyword_tool] at h
  | arr xs => simp [search_keyword_tool] at h
  | obj kvs =>
    simp only [search_keyword_tool] at h
    split at h
    · split at h
      · split at h
        · injection h with h'
          injection h' with hs hd
          exact Or.inl hs.symm
        · injection h with h'
          injection h' with hs hd
          exact Or.inr hs.symm
        · split at h
          · simp at h
          · split at h
            · simp at h
            · injection h with h'
              injection h' with hs hd
              exact Or.inr hs.symm
      · simp at h
    · injection h with h'
      injection h' with hs hd
      exact Or.inl hs.symm

theorem search_ci_characterize (fs : FS) (kvs : List (String × Json))
    (fps kws content : List Char)
    (hfp : pyGet kvs "file_path" Json.null = .str fps)
    (hkw : pyGet kvs "keyword" Json.null = .str kws)
    (hne1 : fps ≠ []) (hne2 : kws ≠ [])
    (hfs : fs (String.mk fps) = some (.file content)) :
    search_keyword_tool fs (Json.obj kvs) = .ok (runScanCI kws content) := by
  have h1 : fps.isEmpty = false := by
    cases fps with
    | nil => exact absurd rfl hne1
    | cons a b => rfl
  have h2 : kws.isEmpty = false := by
    cases kws with
    | nil => exact absurd rfl hne2
    | cons a b => rfl
  simp [search_keyword_tool, hfp, hkw, hfs, truthy, h1, h2]

theorem search_ok_or_http (fs : FS) (args : Json) (h : argsSafe args = true) :
    okOrHttp (search_keyword_tool fs args) = true := by
  cases args with
  | null => simp [argsSafe] at h
  | bool b => simp [argsSafe] at h
  | num n => simp [argsSafe] at h
  | str s => simp [argsSafe] at h
  | arr xs => simp [argsSafe] at h
  | obj kvs =>
    rcases hfp : pyGet kvs "file_path" Json.null with _ | b | n | s | xs | os
    · simp [search_keyword_tool, hfp, truthy, okOrHttp]
    · simp only [argsSafe, hfp] at h
      have hb : b = false := by simpa using h
      simp [search_keyword_tool, hfp, truthy, hb, okOrHttp]
    · simp only [argsSafe, hfp] at h
      have hn : n = 0 := by simpa [truthy] using h
      simp [search_keyword_tool, hfp, truthy, hn, okOrHttp]
    · simp only [search_keyword_tool, hfp]
      split
      · rcases hfs : fs (String.mk s) with _ | entry
        · simp [hfs, okOrHttp]
        · cases entry with
          | dir => simp [hfs, okOrHttp]
          | file content =>
            simp only [hfs]
            rcases hkw : pyGet kvs "keyword" Json.null with _ | b2 | n2 | s2 | xs2 | os2 <;>
              simp only [hkw] <;>
              first
              | rfl
              | (split <;> rfl)
      · rfl
    · simp only [argsSafe, hfp] at h
      have hx : xs.isEmpty = true := by simpa [truthy] using h
      simp [search_keyword_tool, hfp, truthy, hx, okOrHttp]
    · simp only [argsSafe, hfp] at h
      have hx : os.isEmpty = true := by simpa [truthy] using h
      simp [search_keyword_tool, hfp, truthy, hx, okOrHttp]

theorem toolsCall_returns (fs : FS) (jrv idv params : Json)
    (h : paramsSafe params = true) :
    ∃ v, handleToolsCall fs jrv idv params = .ok v := by
  cases params with
  | null => simp [paramsSafe] at h
  | bool b => simp [paramsSafe] at h
  | num n => simp [paramsSafe] at h
  | str s => simp [paramsSafe] at h
  | arr xs => simp [paramsSafe] at h
  | obj pkvs =>
    rcases hn : pyGet pkvs "name" Json.null with _ | b | n | s | xs | os
    · exact ⟨rpcErr jrv idv (-32601) (strL "Unknown tool: " ++ pyStr Json.null),
        by simp [handleToolsCall, hn]⟩
    · exact ⟨rpcErr jrv idv (-32601) (strL "Unknown tool: " ++ pyStr (Json.bool b)),
        by simp [handleToolsCall, hn]⟩
    · exact ⟨rpcErr jrv idv (-32601) (strL "Unknown tool: " ++ pyStr (Json.num n)),
        by simp [handleToolsCall, hn]⟩
    · by_cases hsk : s = strL "search_keyword"
      · subst hsk
        simp only [paramsSafe, hn, eq_self_iff_true, if_true, if_pos rfl] at h
        have hres := search_ok_or_http fs (pyGet pkvs "arguments" (Json.obj [])) h
        rcases hr : search_keyword_tool fs (pyGet pkvs "arguments" (Json.obj [])) with e | r
        · rw [hr] at hres
          cases e with
          | httpExc s2 d =>
            exact ⟨rpcErr jrv idv (Int.ofNat s2) (pyStr d),
              by simp [handleToolsCall, hn, hr]⟩
          | attrError m => simp [okOrHttp] at hres
          | typeError m => simp [okOrHttp] at hres
          | fileNotFound p => simp [okOrHttp] at hres
          | isADirectory p => simp [okOrHttp] at hres
          | valueError m => simp [okOrHttp] at hres
        · exact ⟨rpcOk jrv idv (.obj [("content", .arr [.obj [("type", jstr "text"),
            ("text", .str (fmtText r))]])]), by simp [handleToolsCall, hn, hr]⟩
      · exact ⟨rpcErr jrv idv (-32601) (strL "Unknown tool: " ++ pyStr (Json.str s)),
          by simp [handleToolsCall, hn, hsk]⟩
    · exact ⟨rpcErr jrv idv (-32601) (strL "Unknown tool: " ++ pyStr (Json.arr xs)),
        by simp [handleToolsCall, hn]⟩
    · exact ⟨rpcErr jrv idv (-32601) (strL "Unknown tool: " ++ pyStr (Json.obj os)),
        by simp [handleToolsCall, hn]⟩

theorem handleRpc_returns (fs : FS) (kvs : List (String × Json))
    (h : safeBody (Json.obj kvs) = true)
    (hm : hasMethodKey (Json.obj kvs) = true) :
    ∃ v, handleRpc fs (Json.obj kvs) = .ok v := by
  rcases hmv : pyGet kvs "method" Json.null with _ | b | n | s | xs | os
  · exact ⟨rpcErr (pyGet kvs "jsonrpc" (jstr "2.0")) (pyGet kvs "id" Json.null) (-32601)
      (strL "Method not found: " ++ pyStr Json.null), by simp [handleRpc, hmv]⟩
  · exact ⟨rpcErr (pyGet kvs "jsonrpc" (jstr "2.0")) (pyGet kvs "id" Json.null) (-32601)
      (strL "Method not found: " ++ pyStr (Json.bool b)), by simp [handleRpc, hmv]⟩
  · exact ⟨rpcErr (pyGet kvs "jsonrpc" (jstr "2.0")) (pyGet kvs "id" Json.null) (-32601)
      (strL "Method not found: " ++ pyStr (Json.num n)), by simp [handleRpc, hmv]⟩
  · by_cases h1 : s = strL "initialize"
    · exact ⟨rpcOk (pyGet kvs "jsonrpc" (jstr "2.0")) (pyGet kvs "id" Json.null) initResult,
        by simp [handleRpc, hmv, h1]⟩
    · by_cases h2 : s = strL "tools/list"
      · subst h2
        exact ⟨rpcOk (pyGet kvs "jsonrpc" (jstr "2.0")) (pyGet kvs "id" Json.null)
          toolsListResult, by
            simp only [handleRpc, hmv]
            rw [if_neg (by decide)]
            simp⟩
      · by_cases h3 : s = strL "tools/call"
        · subst h3
          have hm' : kvs.any (fun p => p.1 == "method") = true := hm
          simp only [safeBody, hm', if_true, hmv, eq_self_iff_true, if_pos rfl] at h
          obtain ⟨v, hv⟩ := toolsCall_returns fs (pyGet kvs "jsonrpc" (jstr "2.0"))
            (pyGet kvs "id" Json.null) (pyGet kvs "params" (Json.obj [])) h
          exact ⟨v, by simp [handleRpc, hmv, h1, h2, hv]⟩
        · exact ⟨rpcErr (pyGet kvs "jsonrpc" (jstr "2.0")) (pyGet kvs "id" Json.null) (-32601)
            (strL "Method not found: " ++ pyStr (Json.str s)),
            by simp [handleRpc, hmv, h1, h2, h3]⟩
  · exact ⟨rpcErr (pyGet kvs "jsonrpc" (jstr "2.0")) (pyGet kvs "id" Json.null) (-32601)
      (strL "Method not found: " ++ pyStr (Json.arr xs)), by simp [handleRpc, hmv]⟩
  · exact ⟨rpcErr (pyGet kvs "jsonrpc" (jstr "2.0")) (pyGet kvs "id" Json.null) (-32601)
      (strL "Method not found: " ++ pyStr (Json.obj os)), by simp [handleRpc, hmv]⟩

theorem handleDirect_ok_or_http (fs : FS) (body : Json)
    (h : safeBody body = true) (hm : hasMethodKey body = false) :
    okOrHttp (handleDirect fs body) = true := by
  cases body with
  | null => simp [handleDirect, okOrHttp]
  | bool b => simp [handleDirect, okOrHttp]
  | num n => simp [handleDirect, okOrHttp]
  | str s => simp [handleDirect, okOrHttp]
  | arr xs => simp [handleDirect, okOrHttp]
  | obj kvs =>
    have hm' : kvs.any (fun p => p.1 == "method") = false := hm
    rcases ht : pyGet kvs "tool" Json.null with _ | b | n | s | xs | os
    · simp [handleDirect, ht, truthy, okOrHttp]
    · cases b <;> simp [handleDirect, ht, truthy, okOrHttp]
    · by_cases hn0 : n = 0
      · simp [handleDirect, ht, truthy, hn0, okOrHttp]
      · simp [handleDirect, ht, truthy, hn0, okOrHttp]
    · by_cases hse : s.isEmpty = true
      · simp [handleDirect, ht, truthy, hse, okOrHttp]
      · have hse' : s.isEmpty = false := by simpa using hse
        by_cases hsk : s = strL "search_keyword"
        · subst hsk
          simp only [safeBody, hm', Bool.false_eq_true, if_false, ht,
            eq_self_iff_true, if_pos rfl] at h
          have hres := search_ok_or_http fs (extractArgs kvs) h
          simp only [handleDirect, ht, truthy, hse', Bool.not_false, if_pos rfl,
            eq_self_iff_true, if_true]
          rcases hr : search_keyword_tool fs (extractArgs kvs) with e | r
          · rw [hr] at hres
            cases e with
            | httpExc s2 d => simp [hr, okOrHttp]
            | attrError m => simp [okOrHttp] at hres
            | typeError m => simp [okOrHttp] at hres
            | fileNotFound p => simp [okOrHttp] at hres
            | isADirectory p => simp [okOrHttp] at hres
            | valueError m => simp [okOrHttp] at hres
          · simp [hr, okOrHttp]
        · simp [handleDirect, ht, truthy, hse', hsk, okOrHttp]
    · cases xs with
      | nil => simp [handleDirect, ht, truthy, okOrHttp]
      | cons x xt => simp [handleDirect, ht, truthy, okOrHttp]
    · cases os with
      | nil => simp [handleDirect, ht, truthy, okOrHttp]
      | cons o ot => simp [handleDirect, ht, truthy, okOrHttp]

/-- C1: For every file and keyword, the search result satisfies
`count == len(matches)` and the matches are sorted strictly ascending by
their 1-based `line` field, with exactly one record per matching line
(expressed by the per-line count being 1 on matching lines and 0
otherwise); this holds for the standalone scanner `search_in_file` (first
conjunct, any flags) and for the HTTP search `search_keyword_tool` (second
and third conjuncts). -/
theorem spec_search_result_count_and_order :
    (∀ (fs : FS) (path : String) (keyword : List Char) (ci ur : Bool)
       (pred : List Char → Bool) (content : List Char),
       predOf keyword ci ur = .ok pred →
       fs path = some (.file content) →
       search_in_file fs path keyword ci ur =
           .ok (scanLines pred 1 (splitKeepEnds content)) ∧
         (scanLines pred 1 (splitKeepEnds content)).Pairwise (fun a b => a.line < b.line) ∧
         ∀ (j : Nat) (hj : j < (splitKeepEnds content).length),
           (scanLines pred 1 (splitKeepEnds content)).countP (fun r => r.line == j + 1) =
             if pred ((splitKeepEnds content).get ⟨j, hj⟩) then 1 else 0) ∧
    (∀ (fs : FS) (args : Json) (r : SearchResult),
       search_keyword_tool fs args = .ok r →
       r.count = r.matches'.length ∧ r.matches'.Pairwise (fun a b => a.line < b.line)) ∧
    (∀ (fs : FS) (kvs : List (String × Json)) (fps kws content : List Char) (r : SearchResult),
       pyGet kvs "file_path" Json.null = .str fps →
       pyGet kvs "keyword" Json.null = .str kws →
       fps ≠ [] → kws ≠ [] →
       fs (String.mk fps) = some (.file content) →
       search_keyword_tool fs (Json.obj kvs) = .ok r →
       ∀ (j : Nat) (hj : j < (splitKeepEnds content).length),
         r.matches'.countP (fun r2 => r2.line == j + 1) =
           if strContains (pyLower kws) (pyLower ((splitKeepEnds content).get ⟨j, hj⟩))
           then 1 else 0) := by
  refine ⟨?_, ?_, ?_⟩
  · intro fs path keyword ci ur pred content hpred hfs
    have he : search_in_file fs path keyword ci ur =
        .ok (scanLines pred 1 (splitKeepEnds content)) := by
      simp only [search_in_file, hpred, hfs]
    refine ⟨he, scanLines_pairwise pred (splitKeepEnds content) 1, ?_⟩
    intro j hj
    have hcnt := scanLines_countP_line pred (splitKeepEnds content) 1 j hj
    simpa [Nat.add_comm] using hcnt
  · intro fs args r h
    exact search_ok_shape fs args r h
  · intro fs kvs fps kws content r hfp hkw hne1 hne2 hfs h
    have hc := search_ci_characterize fs kvs fps kws content hfp hkw hne1 hne2 hfs
    rw [h] at hc
    injection hc with hc'
    subst hc'
    intro j hj
    have hcnt := scanLines_countP_line (fun l => strContains (pyLower kws) (pyLower l))
      (splitKeepEnds content) 1 j hj
    simpa [runScanCI, Nat.add_comm] using hcnt

/-- Witness for the count/ordering theorem at a concrete filesystem,
file `"ab\nb\n"` and keyword `"b"`. -/
theorem spec_search_result_count_and_order_witness :
    (search_in_file (fun p => if p = "f" then some (.file (strL "ab\nb\n")) else none) "f"
        (strL "b") false false =
        .ok (scanLines (fun line => strContains (strL "b") line) 1
          (splitKeepEnds (strL "ab\nb\n"))) ∧
      (scanLines (fun line => strContains (strL "b") line) 1
          (splitKeepEnds (strL "ab\nb\n"))).Pairwise (fun a b => a.line < b.line) ∧
      ∀ (j : Nat) (hj : j < (splitKeepEnds (strL "ab\nb\n")).length),
        (scanLines (fun line => strContains (strL "b") line) 1
            (splitKeepEnds (strL "ab\nb\n"))).countP (fun r => r.line == j + 1) =
          if strContains (strL "b") ((splitKeepEnds (strL "ab\nb\n")).get ⟨j, hj⟩)
          then 1 else 0) ∧
    ((⟨[⟨1, strL "ab"⟩, ⟨2, strL "b"⟩], 2⟩ : SearchResult).count =
        (⟨[⟨1, strL "ab"⟩, ⟨2, strL "b"⟩], 2⟩ : SearchResult).matches'.length ∧
      (⟨[⟨1, strL "ab"⟩, ⟨2, strL "b"⟩], 2⟩ : SearchResult).matches'.Pairwise
        (fun a b => a.line < b.line)) :=
  ⟨spec_search_result_count_and_order.1
      (fun p => if p = "f" then some (.file (strL "ab\nb\n")) else none) "f" (strL "b")
      false false (fun line => strContains (strL "b") line) (strL "ab\nb\n") rfl rfl,
   spec_search_result_count_and_order.2.1
      (fun p => if p = "f" then some (.file (strL "ab\nb\n")) else none)
      (Json.obj [("file_path", jstr "f"), ("keyword", jstr "b")])
      ⟨[⟨1, strL "ab"⟩, ⟨2, strL "b"⟩], 2⟩ rfl⟩

/-- C2 counterexample: a `tools/call` whose failure is a missing argument
yields `error.code = 400` — the HTTP status code, a positive number — not a
negative code as claimed. -/
theorem rpc_error_code_not_negative_cex :
    mcp_endpoint (fun _ => none)
        (Json.obj [("method", jstr "tools/call"),
                   ("params", Json.obj [("name", jstr "search_keyword"),
                                        ("arguments", Json.obj [])])]) =
      .ok (Json.obj [("jsonrpc", jstr "2.0"), ("id", Json.null),
        ("error", Json.obj [("code", Json.num 400),
          ("message", Json.str (pyStr (Json.obj [("error",
            Json.str (strL "Missing \x27file_path\x27 or \x27keyword\x27 in args"))])))])]) ∧
    ¬((400 : Int) < 0) := ⟨rfl, by decide⟩

/-- C2 (amended): every `tools/call` failure of `search_keyword` that is
reported in the envelope carries `error.code` equal to the raised
HTTPException's status — 400 or 500 — a positive code (only
UnknownMethod/UnknownTool use the reserved `-32601`). -/
theorem rpc_error_code_is_http_status (fs : FS) (jrv idv args : Json) (s : Nat) (d : Json)
    (h : search_keyword_tool fs args = .error (.httpExc s d)) :
    mcp_endpoint fs (Json.obj [("method", jstr "tools/call"), ("jsonrpc", jrv), ("id", idv),
        ("params", Json.obj [("name", jstr "search_keyword"), ("arguments", args)])]) =
      .ok (rpcErr jrv idv (Int.ofNat s) (pyStr d)) ∧ (s = 400 ∨ s = 500) := by
  constructor
  · rw [mcp_search_call, h]
  · exact search_err_status fs args s d h

/-- Witness for the HTTP-status error-code theorem on a missing-argument
failure. -/
theorem rpc_error_code_is_http_status_witness :
    mcp_endpoint (fun _ => none)
        (Json.obj [("method", jstr "tools/call"), ("jsonrpc", jstr "2.0"), ("id", Json.num 7),
          ("params", Json.obj [("name", jstr "search_keyword"), ("arguments", Json.obj [])])]) =
        .ok (rpcErr (jstr "2.0") (Json.num 7) (Int.ofNat 400)
          (pyStr (Json.obj [("error",
            Json.str (strL "Missing \x27file_path\x27 or \x27keyword\x27 in args"))]))) ∧
      (400 = 400 ∨ 400 = 500) :=
  rpc_error_code_is_http_status (fun _ => none) (jstr "2.0") (Json.num 7) (Json.obj []) 400
    (Json.obj [("error", Json.str (strL "Missing \x27file_path\x27 or \x27keyword\x27 in args"))])
    rfl

/-- C3 counterexample: a path that exists but is not a readable file (a
directory) yields an HTTP 500 internal error whose message is not the
FileNotFound one — a different error class than the claimed FileNotFound. -/
theorem unreadable_path_not_filenotfound_cex :
    search_keyword_tool (fun p => if p = "d" then some .dir else none)
        (Json.obj [("file_path", jstr "d"), ("keyword", jstr "k")]) =
      .error (.httpExc 500 (Json.obj [("error",
        Json.str (strL "Is a directory: " ++ strL "d"))])) ∧
    (500 : Nat) ≠ 400 := ⟨rfl, by decide⟩

/-- C3 (amended): every path that does not exist yields the FileNotFound
error: `search_keyword_tool` raises HTTPException 400 with the
`File not found` detail, the Direct convention surfaces exactly that 400
error, and the RPC `tools/call` convention reports code 400 in the
envelope. (Paths that exist but are unreadable — e.g. directories — are
instead reported as a 500 internal error, per the counterexample.) -/
theorem nonexistent_path_yields_filenotfound (fs : FS) (kvs : List (String × Json))
    (fps kws : List Char) (jrv idv : Json)
    (hfp : pyGet kvs "file_path" Json.null = .str fps)
    (hkw : pyGet kvs "keyword" Json.null = .str kws)
    (hne1 : fps ≠ []) (hne2 : kws ≠ [])
    (hfs : fs (String.mk fps) = none) :
    search_keyword_tool fs (Json.obj kvs) =
        .error (.httpExc 400 (Json.obj [("error",
          Json.str (strL "File not found: " ++ fps))])) ∧
      handleDirect fs (Json.obj [("tool", jstr "search_keyword"), ("args", Json.obj kvs)]) =
        .error (.httpExc 400 (Json.obj [("error",
          Json.str (strL "File not found: " ++ fps))])) ∧
      mcp_endpoint fs (Json.obj [("method", jstr "tools/call"), ("jsonrpc", jrv), ("id", idv),
          ("params", Json.obj [("name", jstr "search_keyword"), ("arguments", Json.obj kvs)])]) =
        .ok (rpcErr jrv idv (Int.ofNat 400)
          (pyStr (Json.obj [("error", Json.str (strL "File not found: " ++ fps))]))) := by
  have h1 : fps.isEmpty = false := by
    cases fps with
    | nil => exact absurd rfl hne1
    | cons a b => rfl
  have h2 : kws.isEmpty = false := by
    cases kws with
    | nil => exact absurd rfl hne2
    | cons a b => rfl
  have hsearch : search_keyword_tool fs (Json.obj kvs) =
      .error (.httpExc 400 (Json.obj [("error",
        Json.str (strL "File not found: " ++ fps))])) := by
    simp [search_keyword_tool, hfp, hkw, hfs, truthy, h1, h2]
  have hkvs : kvs.isEmpty = false := by
    cases kvs with
    | nil => simp [pyGet] at hfp
    | cons a t => rfl
  refine ⟨hsearch, ?_, ?_⟩
  · have hextract : extractArgs [("tool", jstr "search_keyword"), ("args", Json.obj kvs)] =
        Json.obj kvs := by
      simp [extractArgs, pyGet, truthy, hkvs]
    have hd : handleDirect fs (Json.obj [("tool", jstr "search_keyword"),
          ("args", Json.obj kvs)]) =
        (match search_keyword_tool fs
            (extractArgs [("tool", jstr "search_keyword"), ("args", Json.obj kvs)]) with
         | .ok r => .ok (encodeResult r)
         | .error e => .error e) := rfl
    rw [hd, hextract, hsearch]
  · rw [mcp_search_call, hsearch]

/-- Witness for the FileNotFound theorem on a nonexistent path. -/
theorem nonexistent_path_yields_filenotfound_witness :
    search_keyword_tool (fun _ => none)
        (Json.obj [("file_path", jstr "g"), ("keyword", jstr "k")]) =
        .error (.httpExc 400 (Json.obj [("error",
          Json.str (strL "File not found: " ++ strL "g"))])) ∧
      handleDirect (fun _ => none) (Json.obj [("tool", jstr "search_keyword"),
          ("args", Json.obj [("file_path", jstr "g"), ("keyword", jstr "k")])]) =
        .error (.httpExc 400 (Json.obj [("error",
          Json.str (strL "File not found: " ++ strL "g"))])) ∧
      mcp_endpoint (fun _ => none)
          (Json.obj [("method", jstr "tools/call"), ("jsonrpc", jstr "2.0"), ("id", Json.null),
            ("params", Json.obj [("name", jstr "search_keyword"),
              ("arguments", Json.obj [("file_path", jstr "g"), ("keyword", jstr "k")])])]) =
        .ok (rpcErr (jstr "2.0") Json.null (Int.ofNat 400)
          (pyStr (Json.obj [("error", Json.str (strL "File not found: " ++ strL "g"))]))) :=
  nonexistent_path_yields_filenotfound (fun _ => none)
    [("file_path", jstr "g"), ("keyword", jstr "k")] (strL "g") (strL "k")
    (jstr "2.0") Json.null rfl rfl (by decide) (by decide) rfl

/-- C4 counterexample: a `tools/call` body whose `params` is not a mapping
makes the adapter raise a raw `AttributeError` to its caller — an exception
that is neither a returned envelope nor an HTTPException error descriptor. -/
theorem adapter_uncaught_exception_cex :
    mcp_endpoint (fun _ => none)
        (Json.obj [("method", jstr "tools/call"), ("params", jstr "x")]) =
      .error (.attrError (strL "object has no attribute get")) ∧
    okOrHttp (mcp_endpoint (fun _ => none)
        (Json.obj [("method", jstr "tools/call"), ("params", jstr "x")])) = false :=
  ⟨rfl, rfl⟩

/-- C4 (amended): on every body whose RPC `params`/`arguments` (or Direct
argument mapping) are mappings with a string-or-absent `file_path`
(`safeBody`), the adapter never raises anything except the HTTPException
error descriptor of the Direct convention, and RPC bodies always return an
envelope; outside `safeBody` a raw AttributeError/TypeError can escape, as
the counterexample shows. -/
theorem adapter_failures_response_shaped (fs : FS) (body : Json)
    (h : safeBody body = true) :
    okOrHttp (mcp_endpoint fs body) = true ∧
    (hasMethodKey body = true → ∃ v, mcp_endpoint fs body = Except.ok v) := by
  by_cases hm : hasMethodKey body = true
  · cases body with
    | null => simp [hasMethodKey] at hm
    | bool b => simp [hasMethodKey] at hm
    | num n => simp [hasMethodKey] at hm
    | str s => simp [hasMethodKey] at hm
    | arr xs => simp [hasMethodKey] at hm
    | obj kvs =>
      obtain ⟨v, hv⟩ := handleRpc_returns fs kvs h hm
      have hme : mcp_endpoint fs (Json.obj kvs) = handleRpc fs (Json.obj kvs) := by
        simp [mcp_endpoint, hm]
      constructor
      · rw [hme, hv]; rfl
      · intro _
        exact ⟨v, by rw [hme, hv]⟩
  · have hm' : hasMethodKey body = false := by simpa using hm
    have hd := handleDirect_ok_or_http fs body h hm'
    have hme : mcp_endpoint fs body = handleDirect fs body := by
      simp [mcp_endpoint, hm']
    exact ⟨by rw [hme]; exact hd, fun hcontr => absurd hcontr hm⟩

/-- Witness for the response-shaped-failures theorem on a safe RPC body. -/
theorem adapter_failures_response_shaped_witness :
    okOrHttp (mcp_endpoint (fun _ => none) (Json.obj [("method", jstr "initialize")])) = true ∧
    (hasMethodKey (Json.obj [("method", jstr "initialize")]) = true →
      ∃ v, mcp_endpoint (fun _ => none) (Json.obj [("method", jstr "initialize")]) =
        Except.ok v) :=
  adapter_failures_response_shaped (fun _ => none) (Json.obj [("method", jstr "initialize")]) rfl

/-- C5 counterexample: in regex mode, case-insensitive matching is not a
superset of case-sensitive matching: with pattern `[^A]` on the single line
`a`, the case-sensitive search matches line 1 but the case-insensitive one
matches nothing (IGNORECASE folds the negated class, excluding `a`). -/
theorem ci_superset_fails_in_regex_mode_cex :
    search_in_file (fun p => if p = "f" then some (.file (strL "a")) else none) "f"
        (strL "[^A]") false true = .ok [⟨1, strL "a"⟩] ∧
    search_in_file (fun p => if p = "f" then some (.file (strL "a")) else none) "f"
        (strL "[^A]") true true = .ok [] := ⟨rfl, rfl⟩

/-- C5 (amended): in substring mode (`use_regex = false`) case-insensitive
mode is a superset: every match record produced with
`case_insensitive = false` is also produced with `case_insensitive = true`
for the same keyword; in regex mode the superset can fail (see the
counterexample). -/
theorem ci_superset_substring_mode (fs : FS) (path : String) (keyword : List Char)
    (ms1 ms2 : List MatchRecord)
    (h1 : search_in_file fs path keyword false false = .ok ms1)
    (h2 : search_in_file fs path keyword true false = .ok ms2) :
    ∀ r ∈ ms1, r ∈ ms2 := by
  simp only [search_in_file, predOf, Bool.false_eq_true, if_false, if_true] at h1 h2
  rcases hfs : fs path with _ | entry
  · rw [hfs] at h1
    simp at h1
  · cases entry with
    | dir =>
      rw [hfs] at h1
      simp at h1
    | file content =>
      rw [hfs] at h1 h2
      injection h1 with e1
      injection h2 with e2
      subst e1
      subst e2
      intro r hr
      have hsub := scanLines_sublist
        (p := fun line => strContains keyword line)
        (q := fun line => strContains (pyLower keyword) (pyLower line))
        (fun l hl => strContains_map Char.toLower keyword l hl)
        (splitKeepEnds content) 1
      exact hsub.subset hr

/-- Witness for the substring-mode superset theorem on the file `B\nb\n`
and keyword `b`: the case-sensitive match on line 2 is also a
case-insensitive match. -/
theorem ci_superset_substring_mode_witness :
    (⟨2, strL "b"⟩ : MatchRecord) ∈ [(⟨1, strL "B"⟩ : MatchRecord), ⟨2, strL "b"⟩] :=
  ci_superset_substring_mode
    (fun p => if p = "f" then some (.file (strL "B\nb\n")) else none) "f" (strL "b")
    [⟨2, strL "b"⟩] [⟨1, strL "B"⟩, ⟨2, strL "b"⟩] rfl rfl
    ⟨2, strL "b"⟩ (by simp)

/-- C6: a parsed body is handled by the RPC branch exactly when it is a
mapping containing a `method` key (regardless of other keys), and by the
Direct branch otherwise; this one test is the sole dispatch key of
`mcp_endpoint`. -/
theorem dispatch_iff_method_key (fs : FS) (body : Json) :
    (hasMethodKey body = true → mcp_endpoint fs body = handleRpc fs body) ∧
    (hasMethodKey body = false → mcp_endpoint fs body = handleDirect fs body) ∧
    (hasMethodKey body = true ↔ ∃ kvs v, body = Json.obj kvs ∧ ("method", v) ∈ kvs) := by
  refine ⟨fun h => by simp [mcp_endpoint, h], fun h => by simp [mcp_endpoint, h], ?_⟩
  cases body with
  | null => simp [hasMethodKey]
  | bool b => simp [hasMethodKey]
  | num n => simp [hasMethodKey]
  | str s => simp [hasMethodKey]
  | arr xs => simp [hasMethodKey]
  | obj kvs =>
    simp only [hasMethodKey, List.any_eq_true]
    constructor
    · rintro ⟨⟨k, v⟩, hp, he⟩
      simp only [beq_iff_eq] at he
      exact ⟨kvs, v, rfl, by rw [← he]; exact hp⟩
    · rintro ⟨kvs2, v, hbody, hmem⟩
      injection hbody with hk
      subst hk
      exact ⟨("method", v), hmem, by simp⟩

/-- Witness for the dispatch theorem: a body with a `method` key goes to the
RPC branch, a body without one goes to the Direct branch. -/
theorem dispatch_iff_method_key_witness :
    mcp_endpoint (fun _ => none) (Json.obj [("method", Json.null)]) =
        handleRpc (fun _ => none) (Json.obj [("method", Json.null)]) ∧
      mcp_endpoint (fun _ => none) (Json.obj [("tool", jstr "x")]) =
        handleDirect (fun _ => none) (Json.obj [("tool", jstr "x")]) :=
  ⟨(dispatch_iff_method_key (fun _ => none) (Json.obj [("method", Json.null)])).1 rfl,
   (dispatch_iff_method_key (fun _ => none) (Json.obj [("tool", jstr "x")])).2.1 rfl⟩

/-- C7: every successful RPC `tools/call` of `search_keyword` returns a
text block equal to `"Found {count} matches:\n"` followed by one line per
match formatted as `"Line {line}: {text}"`, joined by newlines, with the
count and match list taken from the search result. -/
theorem tools_call_success_text_format (fs : FS) (jrv idv args : Json) (r : SearchResult)
    (h : search_keyword_tool fs args = .ok r) :
    mcp_endpoint fs (Json.obj [("method", jstr "tools/call"), ("jsonrpc", jrv), ("id", idv),
        ("params", Json.obj [("name", jstr "search_keyword"), ("arguments", args)])]) =
      .ok (Json.obj [("jsonrpc", jrv), ("id", idv),
        ("result", Json.obj [("content", Json.arr [Json.obj [("type", jstr "text"),
          ("text", Json.str (strL "Found " ++ (toString r.count).data ++ strL " matches:\n" ++
            joinNl (r.matches'.map (fun m =>
              strL "Line " ++ (toString m.line).data ++ strL ": " ++ m.text))))]])])]) := by
  rw [mcp_search_call, h]
  rfl

/-- Witness for the text-format theorem on the file `ab\nb\n` and keyword
`b` (two matches). -/
theorem tools_call_success_text_format_witness :
    mcp_endpoint (fun p => if p = "f" then some (.file (strL "ab\nb\n")) else none)
        (Json.obj [("method", jstr "tools/call"), ("jsonrpc", jstr "2.0"), ("id", Json.num 1),
          ("params", Json.obj [("name", jstr "search_keyword"),
            ("arguments", Json.obj [("file_path", jstr "f"), ("keyword", jstr "b")])])]) =
      .ok (Json.obj [("jsonrpc", jstr "2.0"), ("id", Json.num 1),
        ("result", Json.obj [("content", Json.arr [Json.obj [("type", jstr "text"),
          ("text", Json.str (fmtText ⟨[⟨1, strL "ab"⟩, ⟨2, strL "b"⟩], 2⟩))]])])]) :=
  tools_call_success_text_format
    (fun p => if p = "f" then some (.file (strL "ab\nb\n")) else none)
    (jstr "2.0") (Json.num 1) (Json.obj [("file_path", jstr "f"), ("keyword", jstr "b")])
    ⟨[⟨1, strL "ab"⟩, ⟨2, strL "b"⟩], 2⟩ rfl

/-- C8 counterexample: when `args` is present but falsy (the empty mapping)
and `params` is present and truthy, the extracted argument mapping is the
`params` value, not the present `args` value — so a present `args` does not
take precedence; end to end, the Direct request succeeds with the `params`
arguments instead of failing on the empty `args`. -/
theorem args_precedence_fails_on_falsy_args_cex :
    pyGet [("tool", jstr "search_keyword"), ("args", Json.obj []),
           ("params", Json.obj [("file_path", jstr "f"), ("keyword", jstr "b")])]
        "args" Json.null = Json.obj [] ∧
    extractArgs [("tool", jstr "search_keyword"), ("args", Json.obj []),
                 ("params", Json.obj [("file_path", jstr "f"), ("keyword", jstr "b")])] =
      Json.obj [("file_path", jstr "f"), ("keyword", jstr "b")] ∧
    Json.obj [("file_path", jstr "f"), ("keyword", jstr "b")] ≠ Json.obj [] ∧
    handleDirect (fun p => if p = "f" then some (.file (strL "ab\nb\n")) else none)
        (Json.obj [("tool", jstr "search_keyword"), ("args", Json.obj []),
                   ("params", Json.obj [("file_path", jstr "f"), ("keyword", jstr "b")])]) =
      .ok (encodeResult ⟨[⟨1, strL "ab"⟩, ⟨2, strL "b"⟩], 2⟩) :=
  ⟨rfl, rfl, by simp, rfl⟩

/-- C8 (amended): for every Direct-variant `search_keyword` body, the
argument mapping is the first truthy value among `args` and `params`,
falling back to the empty mapping — so a present-but-falsy `args` (such as
`{}` or `null`) is skipped in favour of `params`, and only a truthy `args`
takes precedence. -/
theorem direct_args_first_truthy (fs : FS) (kvs : List (String × Json))
    (htool : pyGet kvs "tool" Json.null = jstr "search_keyword") :
    handleDirect fs (Json.obj kvs) =
      (match search_keyword_tool fs
          (if truthy (pyGet kvs "args" Json.null) then pyGet kvs "args" Json.null
           else if truthy (pyGet kvs "params" Json.null) then pyGet kvs "params" Json.null
           else Json.obj []) with
       | .ok r => .ok (encodeResult r)
       | .error e => .error e) := by
  have htt : truthy (pyGet kvs "tool" Json.null) = true := by rw [htool]; rfl
  simp only [handleDirect, htool, htt, if_true, eq_self_iff_true]
  rfl

/-- Witness for the first-truthy argument-selection theorem on a body with
falsy `args` and truthy `params`. -/
theorem direct_args_first_truthy_witness :
    handleDirect (fun p => if p = "f" then some (.file (strL "ab\nb\n")) else none)
        (Json.obj [("tool", jstr "search_keyword"), ("args", Json.obj []),
                   ("params", Json.obj [("file_path", jstr "f"), ("keyword", jstr "b")])]) =
      (match search_keyword_tool
          (fun p => if p = "f" then some (.file (strL "ab\nb\n")) else none)
          (if truthy (pyGet [("tool", jstr "search_keyword"), ("args", Json.obj []),
              ("params", Json.obj [("file_path", jstr "f"), ("keyword", jstr "b")])]
              "args" Json.null)
           then pyGet [("tool", jstr "search_keyword"), ("args", Json.obj []),
              ("params", Json.obj [("file_path", jstr "f"), ("keyword", jstr "b")])]
              "args" Json.null
           else if truthy (pyGet [("tool", jstr "search_keyword"), ("args", Json.obj []),
              ("params", Json.obj [("file_path", jstr "f"), ("keyword", jstr "b")])]
              "params" Json.null)
           then pyGet [("tool", jstr "search_keyword"), ("args", Json.obj []),
              ("params", Json.obj [("file_path", jstr "f"), ("keyword", jstr "b")])]
              "params" Json.null
           else Json.obj []) with
       | .ok r => .ok (encodeResult r)
       | .error e => .error e) :=
  direct_args_first_truthy (fun p => if p = "f" then some (.file (strL "ab\nb\n")) else none)
    [("tool", jstr "search_keyword"), ("args", Json.obj []),
     ("params", Json.obj [("file_path", jstr "f"), ("keyword", jstr "b")])] rfl

/-- C9: for RPC `tools/call` requests naming `search_keyword`, keys of
`params.arguments` other than `file_path` and `keyword` (such as
`use_regex` and `case_insensitive`) have no effect: two argument mappings
that agree on those two keys produce identical responses (first conjunct),
and a successful search is always the case-insensitive substring scan of
the file's lines (second conjunct). -/
theorem rpc_extra_keys_no_effect :
    (∀ (fs : FS) (jrv idv : Json) (a1 a2 : List (String × Json)),
      pyGet a1 "file_path" Json.null = pyGet a2 "file_path" Json.null →
      pyGet a1 "keyword" Json.null = pyGet a2 "keyword" Json.null →
      mcp_endpoint fs (Json.obj [("method", jstr "tools/call"), ("jsonrpc", jrv), ("id", idv),
          ("params", Json.obj [("name", jstr "search_keyword"),
            ("arguments", Json.obj a1)])]) =
        mcp_endpoint fs (Json.obj [("method", jstr "tools/call"), ("jsonrpc", jrv), ("id", idv),
          ("params", Json.obj [("name", jstr "search_keyword"),
            ("arguments", Json.obj a2)])])) ∧
    (∀ (fs : FS) (kvs : List (String × Json)) (fps kws content : List Char),
      pyGet kvs "file_path" Json.null = .str fps →
      pyGet kvs "keyword" Json.null = .str kws →
      fps ≠ [] → kws ≠ [] →
      fs (String.mk fps) = some (.file content) →
      search_keyword_tool fs (Json.obj kvs) =
        .ok ⟨scanLines (fun l => strContains (pyLower kws) (pyLower l)) 1
              (splitKeepEnds content),
            (scanLines (fun l => strContains (pyLower kws) (pyLower l)) 1
              (splitKeepEnds content)).length⟩) := by
  constructor
  · intro fs jrv idv a1 a2 h1 h2
    rw [mcp_search_call, mcp_search_call, search_keyword_tool_depends fs a1 a2 h1 h2]
  · intro fs kvs fps kws content hfp hkw hne1 hne2 hfs
    exact search_ci_characterize fs kvs fps kws content hfp hkw hne1 hne2 hfs

/-- Witness for the no-effect theorem: adding `use_regex` and
`case_insensitive` keys leaves the response unchanged. -/
theorem rpc_extra_keys_no_effect_witness :
    mcp_endpoint (fun p => if p = "f" then some (.file (strL "ab\nb\n")) else none)
        (Json.obj [("method", jstr "tools/call"), ("jsonrpc", jstr "2.0"), ("id", Json.null),
          ("params", Json.obj [("name", jstr "search_keyword"),
            ("arguments", Json.obj [("file_path", jstr "f"), ("keyword", jstr "b"),
              ("use_regex", Json.bool true), ("case_insensitive", Json.bool false)])])]) =
      mcp_endpoint (fun p => if p = "f" then some (.file (strL "ab\nb\n")) else none)
        (Json.obj [("method", jstr "tools/call"), ("jsonrpc", jstr "2.0"), ("id", Json.null),
          ("params", Json.obj [("name", jstr "search_keyword"),
            ("arguments", Json.obj [("file_path", jstr "f"), ("keyword", jstr "b")])])]) :=
  rpc_extra_keys_no_effect.1
    (fun p => if p = "f" then some (.file (strL "ab\nb\n")) else none)
    (jstr "2.0") Json.null
    [("file_path", jstr "f"), ("keyword", jstr "b"),
     ("use_regex", Json.bool true), ("case_insensitive", Json.bool false)]
    [("file_path", jstr "f"), ("keyword", jstr "b")] rfl rfl

/-- C10: `search_in_file` performs no argument validation: with an empty
keyword and `use_regex = false` it succeeds and returns one record for
every line of the file (the match-list length equals the file's line
count) rather than rejecting the request. -/
theorem empty_keyword_matches_every_line (fs : FS) (path : String) (content : List Char)
    (hfs : fs path = some (.file content)) :
    search_in_file fs path [] false false =
        .ok (scanLines (fun line => strContains [] line) 1 (splitKeepEnds content)) ∧
      (scanLines (fun line => strContains [] line) 1 (splitKeepEnds content)).length =
        (splitKeepEnds content).length := by
  constructor
  · have hp : predOf [] false false = .ok (fun line => strContains [] line) := rfl
    simp only [search_in_file, hp, hfs]
  · rw [scanLines_length]
    exact List.countP_eq_length.mpr (fun l _ => strContains_nil_needle l)

/-- Witness for the empty-keyword theorem on a two-line file. -/
theorem empty_keyword_matches_every_line_witness :
    search_in_file (fun p => if p = "f" then some (.file (strL "ab\nb\n")) else none)
        "f" [] false false =
        .ok (scanLines (fun line => strContains [] line) 1
          (splitKeepEnds (strL "ab\nb\n"))) ∧
      (scanLines (fun line => strContains [] line) 1
          (splitKeepEnds (strL "ab\nb\n"))).length =
        (splitKeepEnds (strL "ab\nb\n")).length :=
  empty_keyword_matches_every_line
    (fun p => if p = "f" then some (.file (strL "ab\nb\n")) else none)
    "f" (strL "ab\nb\n") rfl
